import Mathlib

/-!
Verification of the ytkvercel HTTP facade (src/api/index.py) against its
natural-language specification.

The Python source is shallowly embedded below.  Pure helpers
(`to_iso_duration`, `format_size`, `get_size_bytes`, `build_formats_list`)
become Lean functions; the threadpool-backed `extract_info` becomes a pure
function of the submitted task's behaviour (its running time and result),
and each Flask route becomes a function from its query parameters and the
current in-memory cache to a response, the updated cache, and the number of
times it invoked the extraction gateway (`extract_info`).

Python exceptions are modelled with `Option`/explicit variants.  Machine
integers are `Nat`/`Int`.  String values stored in raw extraction dicts are
treated as scalar payloads.
-/

/-! ## Python primitives used by the source -/

/-- Numeric value of a list of ASCII digit characters (most significant first),
as computed by Python `int` on a digit string. -/
def digitsToNat (cs : List Char) : Nat :=
  cs.foldl (fun a c => 10 * a + (c.toNat - 48)) 0

/-- Whitespace as stripped by Python `int(str)` before parsing (ASCII cases). -/
def pyWS (c : Char) : Bool :=
  c == ' ' || c == '\t' || c == '\n' || c == '\r'

/-- Strip leading and trailing whitespace, as Python `int(str)` does. -/
def pyStripChars (cs : List Char) : List Char :=
  ((cs.dropWhile pyWS).reverse.dropWhile pyWS).reverse

/-- Parse an optionally signed run of ASCII digits, the digits part of
Python `int(str)`; `none` models a raised `ValueError`.  (Underscore digit
separators and non-ASCII digits accepted by CPython are not modelled; no
input relevant to the routes uses them.) -/
def digitsOpt (cs : List Char) : Option Nat :=
  if cs.isEmpty then none
  else if cs.all Char.isDigit then some (digitsToNat cs) else none

/-- Python `int(str)` on a stripped character list. -/
def pyIntChars (cs : List Char) : Option Int :=
  match cs with
  | [] => none
  | c :: rest =>
    if c = '-' then (digitsOpt rest).map (fun n => -(n : Int))
    else if c = '+' then (digitsOpt rest).map (fun n => (n : Int))
    else (digitsOpt cs).map (fun n => (n : Int))

/-- Python `int(str)`: strip whitespace, then parse an optionally signed
digit run; `none` models `ValueError`. -/
def pyInt (s : String) : Option Int :=
  pyIntChars (pyStripChars s.data)

/-- Python `str.isdigit` restricted to ASCII digits (the only inputs the
routes produce). -/
def pyIsDigit (s : String) : Bool :=
  !s.data.isEmpty && s.data.all Char.isDigit

/-- Python `str.split(sep)` for a single-character separator, on the
character list.  Always returns at least one (possibly empty) chunk. -/
def splitChars (sep : Char) : List Char → List (List Char)
  | [] => [[]]
  | c :: cs =>
    let r := splitChars sep cs
    if c = sep then [] :: r
    else (c :: r.headD []) :: r.tail

/-- Python `str.split(sep)` for a single-character separator. -/
def pySplit (sep : Char) (s : String) : List String :=
  (splitChars sep s.data).map (fun l => ⟨l⟩)

/-- Truthiness of an optional Python string (`None` and the empty string are
falsy). -/
def pyTruthy : Option String → Bool
  | none => false
  | some s => s != ""

/-- Python `s or None` for a string `s`. -/
def strOrNone (s : String) : Option String :=
  if s = "" then none else some s

/-- Python `a or b` on two optional strings (returns `b` when `a` is falsy). -/
def pyOrStr (a b : Option String) : Option String :=
  if pyTruthy a then a else b

/-! ## Duration normalization (src/api/index.py lines 67-81) -/

/-- Body of `to_iso_duration` after `duration_str.split(':')`: branch on the
number of parts (`len(parts)`).  `none` models a `ValueError` raised by
`int(...)` on a malformed part.  The string appends mirror the source's
sequential `iso += ...` (hour component only when `int(h)` is truthy). -/
def isoOfParts : List String → Option String
  | [h, m, s] =>
    (pyInt h).bind fun hv =>
      (pyInt m).bind fun mv =>
        (pyInt s).bind fun sv =>
          some ((if hv ≠ 0 then "PT" ++ toString hv ++ "H" else "PT")
            ++ toString mv ++ "M" ++ toString sv ++ "S")
  | [m, s] =>
    (pyInt m).bind fun mv =>
      (pyInt s).bind fun sv =>
        some ("PT" ++ toString mv ++ "M" ++ toString sv ++ "S")
  | [p] =>
    if pyIsDigit p then some ("PT" ++ toString (digitsToNat p.data) ++ "S")
    else some ("PT0S")
  | _ => some ("PT0S")

/-- `to_iso_duration(duration_str)`: split on `:` (empty string gives no
parts, by the source's truthiness ternary), then shape by part count. -/
def to_iso_duration (ds : String) : Option String :=
  isoOfParts (if ds = "" then [] else pySplit ':' ds)

/-! ## Size helpers (src/api/index.py lines 156-163) -/

/-- Round `(100 * n) / d` to the nearest integer, ties to even: the rational
counterpart of Python's `f-string` `:.2f` rendering of `n / d`.  (CPython
formats the IEEE double `n / d`; for the byte counts and decimal divisors
used here the values of interest are exactly representable.) -/
def round2 (n d : Nat) : Nat :=
  let q := (100 * n) / d
  let r := (100 * n) % d
  if d < 2 * r then q + 1
  else if 2 * r < d then q
  else if q % 2 = 0 then q else q + 1

/-- Two-digit zero-padded rendering of a value below 100. -/
def pad2 (n : Nat) : String :=
  if n < 10 then "0" ++ toString n else toString n

/-- Render a hundredth-scaled value with two decimal places, as `:.2f` does. -/
def fmt2 (v : Nat) : String :=
  toString (v / 100) ++ "." ++ pad2 (v % 100)

/-- `format_size(bytes_val)`: decimal (1000-based) unit tiers with two
decimal places above the byte tier. -/
def format_size (n : Nat) : String :=
  if 1000000000 ≤ n then fmt2 (round2 n 1000000000) ++ " GB"
  else if 1000000 ≤ n then fmt2 (round2 n 1000000) ++ " MB"
  else if 1000 ≤ n then fmt2 (round2 n 1000) ++ " KB"
  else toString n ++ " B"

/-! ## Format descriptors (src/api/index.py lines 156-190)

A raw yt-dlp format dict; `none` models an absent key (or a key mapped to
`None`, which `dict.get` does not distinguish). -/

structure RawFormat where
  url : Option String
  vcodec : Option String
  acodec : Option String
  format_id : Option String
  ext : Option String
  filesize : Option Nat
  filesize_approx : Option Nat
  width : Option Nat
  height : Option Nat
  fps : Option Nat
  abr : Option Nat
  asr : Option Nat
deriving Repr, DecidableEq

/-- Python `a or b` on optional numbers (`None` and `0` are falsy). -/
def orFalsyNat (a : Option Nat) (b : Nat) : Nat :=
  match a with
  | some n => if n = 0 then b else n
  | none => b

/-- `get_size_bytes(fmt)`: `fmt.get('filesize') or fmt.get('filesize_approx') or 0`. -/
def get_size_bytes (f : RawFormat) : Nat :=
  orFalsyNat f.filesize (orFalsyNat f.filesize_approx 0)

/-- The `kind` chained conditional of `build_formats_list`: a codec counts
as present unless its field holds the sentinel string `"none"`. -/
def classify (f : RawFormat) : Option String :=
  if f.vcodec ≠ some ("none") ∧ f.acodec ≠ some ("none") then some ("progressive")
  else if f.vcodec ≠ some ("none") then some ("video-only")
  else if f.acodec ≠ some ("none") then some ("audio-only")
  else none

/-- One entry of the shaped format list. -/
structure ShapedFormat where
  format_id : Option String
  ext : Option String
  kind : String
  filesize_bytes : Nat
  filesize : String
  width : Option Nat
  height : Option Nat
  fps : Option Nat
  abr : Option Nat
  asr : Option Nat
  url : String
deriving Repr, DecidableEq

/-- Shape a single raw format that survived the url and kind guards. -/
def shapeFormat (f : RawFormat) (kind : String) (u : String) : ShapedFormat :=
  ⟨f.format_id, f.ext, kind, get_size_bytes f, format_size (get_size_bytes f),
    f.width, f.height, f.fps, f.abr, f.asr, u⟩

/-- Filter-and-shape step of `build_formats_list` for one descriptor:
skip when `f.get('url')` is falsy (absent or empty), skip when the kind
conditional yields no category. -/
def shapeStep (f : RawFormat) : Option ShapedFormat :=
  match f.url with
  | none => none
  | some u =>
    if u = "" then none
    else
      match classify f with
      | none => none
      | some kind => some (shapeFormat f kind u)

/-! ## Raw extraction results

`InfoDict` models the dict returned by `ydl.extract_info`: the keys the
routes consume structurally (`entries`, `formats`, `related`) are explicit,
every other key is an association of scalar payloads (modelled as opaque
strings, since the routes only copy them into responses). -/

structure ThumbEntry where
  url : Option String
deriving Repr, DecidableEq

structure RelEntry where
  id : Option String
  title : Option String
  webpage_url : Option String
  url : Option String
  thumbnails : Option (List ThumbEntry)
deriving Repr, DecidableEq

inductive InfoDict : Type where
  | mk (hasEntries : Bool) (entries : Option (List InfoDict))
       (formats : Option (List RawFormat)) (related : Option (List RelEntry))
       (fields : List (String × String)) : InfoDict

/-- Whether the raw dict has an `entries` key (`'entries' in info`). -/
def InfoDict.hasEntries : InfoDict → Bool
  | .mk h _ _ _ _ => h

/-- Value of the `entries` key (meaningful when `hasEntries`); `none` also
models the key mapped to Python `None`. -/
def InfoDict.entries : InfoDict → Option (List InfoDict)
  | .mk _ e _ _ _ => e

/-- `info.get('formats')`; `none` models an absent key. -/
def InfoDict.formats : InfoDict → Option (List RawFormat)
  | .mk _ _ f _ _ => f

/-- `info.get('related')`; `none` models an absent key. -/
def InfoDict.related : InfoDict → Option (List RelEntry)
  | .mk _ _ _ r _ => r

/-- Scalar-field lookup, `info.get(k)`. -/
def InfoDict.get : InfoDict → String → Option String
  | .mk _ _ _ _ fs, k => (fs.find? (fun p => p.1 == k)).map (fun p => p.2)

/-- `build_formats_list(info)`: iterate `info.get('formats', [])`, dropping
url-less and category-less descriptors and shaping the rest. -/
def build_formats_list (info : InfoDict) : List ShapedFormat :=
  (info.formats.getD []).filterMap shapeStep

/-! ## Task gateway (src/api/index.py lines 109-151)

The blocking `_run_extract_info` call submitted to the thread pool is
modelled by its observable behaviour: how long it runs and what it
delivers.  `future.result(timeout)` raises `TimeoutError` exactly when the
timeout elapses first. -/

inductive TaskOutcome : Type where
  | completed (info : Option InfoDict)
  | downloadError (msg : String)
  | raisedError (msg : String)

structure TaskRun where
  duration : Nat
  outcome : TaskOutcome

inductive PoolResult : Type where
  | done (info : Option InfoDict)
  | timedOut
  | failedDL (msg : String)
  | failedExn (msg : String)

/-- `future.result(timeout=...)`: with no timeout wait for the outcome;
with a timeout, raise `TimeoutError` when it is shorter than the task's
running time. -/
def awaitResult (run : TaskRun) (timeout : Option Nat) : PoolResult :=
  let deliver : PoolResult :=
    match run.outcome with
    | .completed i => .done i
    | .downloadError m => .failedDL m
    | .raisedError m => .failedExn m
  match timeout with
  | none => deliver
  | some t => if t < run.duration then .timedOut else deliver

/-- The `(info, err, code)` triple returned by `extract_info`;
`err = some msg` models the `{'error': msg}` body. -/
structure ExtractResult where
  info : Option InfoDict
  err : Option String
  code : Option Nat

/-- Target handed to yt-dlp: a truthy search query is wrapped as the
`ytsearch:` directive, otherwise the url is used. -/
def targetOf (url search_query : Option String) : Option String :=
  if pyTruthy search_query then some ("ytsearch:" ++ search_query.getD "") else url

/-- `extract_info(url, search_query, opts, timeout)`: await the pool result;
map `TimeoutError` to 504, `DownloadError` and any other exception to 500;
in search mode unwrap `entries`, with an empty result set reported as 404.
The yt-dlp options only configure the external library and do not appear. -/
def extract_info (url search_query : Option String) (run : TaskRun)
    (timeout : Option Nat) : ExtractResult :=
  match awaitResult run timeout with
  | .timedOut => ⟨none, some ("yt-dlp timed out"), some 504⟩
  | .failedDL m => ⟨none, some m, some 500⟩
  | .failedExn m => ⟨none, some m, some 500⟩
  | .done info =>
    match info with
    | some d =>
      if pyTruthy search_query && d.hasEntries then
        match d.entries.getD [] with
        | [] => ⟨none, some ("No search results"), some 404⟩
        | e :: _ => ⟨some e, none, none⟩
      else ⟨some d, none, none⟩
    | none => ⟨none, none, none⟩

/-! ## In-memory response cache (flask_caching 'simple' backend)

Modelled as an association list where the most recent binding wins; the
configured default timeout of 0 means entries never expire. -/

def cacheGet {α : Type} (c : List (String × α)) (k : String) : Option α :=
  match c with
  | [] => none
  | (k₁, v) :: rest => if k₁ = k then some v else cacheGet rest k

def cacheSet {α : Type} (c : List (String × α)) (k : String) (v : α) :
    List (String × α) :=
  (k, v) :: c

def cacheDel {α : Type} (c : List (String × α)) (k : String) :
    List (String × α) :=
  match c with
  | [] => []
  | (k₁, v) :: rest =>
    if k₁ = k then cacheDel rest k else (k₁, v) :: cacheDel rest k

/-! ## Route: /api/meta (src/api/index.py lines 293-315) -/

/-- The allowlisted metadata keys of `/api/meta`. -/
def metaKeys : List String :=
  ["id", "title", "webpage_url", "duration", "upload_date",
   "view_count", "like_count", "thumbnail", "description",
   "tags", "is_live", "age_limit", "average_rating",
   "uploader", "uploader_url", "uploader_id"]

/-- The dict comprehension `{k: info.get(k) for k in keys}` (the constant
outer `{'metadata': ...}` wrapper is left implicit, so equality of this
projection is equality of the cached/serialized JSON body). -/
def metaDataOf (info : InfoDict) : List (String × Option String) :=
  metaKeys.map (fun k => (k, info.get k))

inductive MetaResp : Type where
  | ok (d : List (String × Option String))
  | err (msg : String) (code : Nat)
  | exn
deriving DecidableEq

structure MetaOut where
  resp : MetaResp
  cache : List (String × List (String × Option String))
  gatewayCalls : Nat

/-- The `/api/meta` handler: key from the stripped `search`/`url` params,
`latest` flag deletes the entry first, cache hit short-circuits (the cached
dict is always truthy), missing params give 400, otherwise a short-timeout
gateway call whose error is surfaced verbatim; a `None` info with no error
would crash the dict comprehension (`exn`). -/
def api_meta (q u : String) (latest : Bool) (metaTimeout : Nat) (run : TaskRun)
    (cache : List (String × List (String × Option String))) : MetaOut :=
  let key := "meta:" ++ q ++ ":" ++ u
  let c₁ := if latest then cacheDel cache key else cache
  match cacheGet c₁ key with
  | some v => ⟨.ok v, c₁, 0⟩
  | none =>
    if q = "" ∧ u = "" then ⟨.err ("Provide \"url\" or \"search\"") 400, c₁, 0⟩
    else
      let r := extract_info (strOrNone u) (strOrNone q) run (some metaTimeout)
      match r.err with
      | some m => ⟨.err m (r.code.getD 0), c₁, 1⟩
      | none =>
        match r.info with
        | none => ⟨.exn, c₁, 1⟩
        | some info =>
          let d := metaDataOf info
          ⟨.ok d, cacheSet c₁ key d, 1⟩

/-! ## Route: /api/all (src/api/index.py lines 251-291) — no caching -/

/-- Output-key/source-key pairs of the scalar part of the `/api/all` body. -/
def allScalarKeys : List (String × String) :=
  [("title", "title"), ("video_url", "webpage_url"), ("duration", "duration"),
   ("upload_date", "upload_date"), ("view_count", "view_count"),
   ("like_count", "like_count"), ("thumbnail", "thumbnail"),
   ("description", "description"), ("tags", "tags"), ("is_live", "is_live"),
   ("age_limit", "age_limit"), ("average_rating", "average_rating")]

structure Suggestion where
  id : Option String
  title : Option String
  url : Option String
  thumbnail : Option String
deriving Repr, DecidableEq

/-- One entry of the `suggestions` comprehension:
`rel.get('thumbnails', [{}])[0].get('url')` — `none` models the `IndexError`
raised when the key is present but holds an empty list. -/
def suggestionOf (rel : RelEntry) : Option Suggestion :=
  match rel.thumbnails with
  | none => some ⟨rel.id, rel.title, pyOrStr rel.webpage_url rel.url, none⟩
  | some [] => none
  | some (t :: _) => some ⟨rel.id, rel.title, pyOrStr rel.webpage_url rel.url, t.url⟩

/-- The full `suggestions` list over `info.get('related', [])`. -/
def suggestionsOf (info : InfoDict) : Option (List Suggestion) :=
  (info.related.getD []).mapM suggestionOf

structure AllData where
  scalars : List (String × Option String)
  channel_name : Option String
  channel_url : Option String
  channel_id : Option String
  formats : List ShapedFormat
  suggestions : List Suggestion

/-- The `/api/all` response body. -/
def allDataOf (info : InfoDict) : Option AllData :=
  (suggestionsOf info).map (fun sugg =>
    ⟨allScalarKeys.map (fun p => (p.1, info.get p.2)),
     info.get ("uploader"),
     pyOrStr (info.get ("uploader_url")) (info.get ("channel_url")),
     info.get ("uploader_id"),
     build_formats_list info,
     sugg⟩)

inductive AllResp : Type where
  | ok (d : AllData)
  | err (msg : String) (code : Nat)
  | exn

structure AllOut where
  resp : AllResp
  gatewayCalls : Nat

/-- The `/api/all` handler: param check first, then a gateway call on every
request — there is no cache lookup and no cache write on this route. -/
def api_all (q u : String) (fullTimeout : Nat) (run : TaskRun) : AllOut :=
  if q = "" ∧ u = "" then ⟨.err ("Provide \"url\" or \"search\"") 400, 0⟩
  else
    let r := extract_info (strOrNone u) (strOrNone q) run (some fullTimeout)
    match r.err with
    | some m => ⟨.err m (r.code.getD 0), 1⟩
    | none =>
      match r.info with
      | none => ⟨.exn, 1⟩
      | some info =>
        match allDataOf info with
        | none => ⟨.exn, 1⟩
        | some d => ⟨.ok d, 1⟩

/-! ## Route: /api/fast-meta (src/api/index.py lines 208-249) -/

/-- One result dict of the `youtube_search` library. -/
structure SearchVid where
  title : Option String
  url_suffix : Option String
  durationStr : Option String
  thumbnails : Option (List (Option String))

inductive FastResp : Type where
  | ok (d : List (String × Option String))
  | err (msg : String) (code : Nat)
deriving DecidableEq

structure FastOut where
  resp : FastResp
  cache : List (String × List (String × Option String))
  gatewayCalls : Nat

/-- Python `[-1]` of `suf.split('v=')` (the split list is never empty). -/
def lastSplit (suf : String) : String :=
  (suf.splitOn ("v=")).getLastD ""

/-- Build the fast-meta result dict from the first search hit; `none` models
an exception inside the route's `try` block (`AttributeError` on a missing
`url_suffix`, `ValueError` from duration parsing, `IndexError` on an empty
`thumbnails` list), all caught and surfaced as HTTP 500. -/
def fastFromSearch (vid : SearchVid) : Option (List (String × Option String)) :=
  match vid.url_suffix with
  | none => none
  | some suf =>
    match to_iso_duration (vid.durationStr.getD "") with
    | none => none
    | some iso =>
      match vid.thumbnails with
      | some [] => none
      | none =>
        some [("title", vid.title),
              ("link", some ("https://www.youtube.com/watch?v=" ++ lastSplit suf)),
              ("duration", some iso), ("thumbnail", none)]
      | some (t :: _) =>
        some [("title", vid.title),
              ("link", some ("https://www.youtube.com/watch?v=" ++ lastSplit suf)),
              ("duration", some iso), ("thumbnail", t)]

/-- Python `str(...)` of an optional scalar (`str(None)` is `"None"`). -/
def pyStr (o : Option String) : String :=
  o.getD "None"

/-- The `/api/fast-meta` handler.  The cache hit test is `is not None`; the
search branch uses the `youtube_search` library (modelled by the
`searchResults` argument), not the yt-dlp gateway; the url branch uses a
short-timeout gateway call.  Exception messages inside the `try` are
abbreviated to `"exception"` (their text never matters below). -/
def api_fast_meta (q u : String) (latest : Bool) (searchResults : List SearchVid)
    (metaTimeout : Nat) (run : TaskRun)
    (cache : List (String × List (String × Option String))) : FastOut :=
  let key := "fast_meta:" ++ q ++ ":" ++ u
  let c₁ := if latest then cacheDel cache key else cache
  match cacheGet c₁ key with
  | some v => ⟨.ok v, c₁, 0⟩
  | none =>
    if q = "" ∧ u = "" then
      ⟨.err ("Provide either \"search\" or \"url\" parameter") 400, c₁, 0⟩
    else if q ≠ "" then
      match searchResults with
      | [] => ⟨.err ("No results") 404, c₁, 0⟩
      | vid :: _ =>
        match fastFromSearch vid with
        | none => ⟨.err ("exception") 500, c₁, 0⟩
        | some d => ⟨.ok d, cacheSet c₁ key d, 0⟩
    else
      let r := extract_info (some u) none run (some metaTimeout)
      match r.err with
      | some m => ⟨.err m (r.code.getD 0), c₁, 1⟩
      | none =>
        match r.info with
        | none => ⟨.err ("exception") 500, c₁, 1⟩
        | some info =>
          match to_iso_duration (pyStr (info.get ("duration"))) with
          | none => ⟨.err ("exception") 500, c₁, 1⟩
          | some iso =>
            let d := [("title", info.get ("title")),
                      ("link", info.get ("webpage_url")),
                      ("duration", some iso),
                      ("thumbnail", info.get ("thumbnail"))]
            ⟨.ok d, cacheSet c₁ key d, 1⟩

/-! ## Route: /download (src/api/index.py lines 465-478)

Decorated with `cache.cached(timeout=STREAM_TIMEOUT,
key_prefix=lambda: f"download:{request.full_path}")`: the cache key is the
literal request path including the query string, so the `latest` flag is
just another query parameter and does NOT delete anything; the decorator
returns a cached response without entering the view at all.  An uncaught
exception in the view propagates, so nothing is cached in that case. -/

/-- Deterministic model of `request.full_path` for `/download`. -/
def downloadFullPath (url search : Option String) (latest : Bool) : String :=
  "/download?"
    ++ (match url with | none => "" | some v => "url=" ++ v ++ "&")
    ++ (match search with | none => "" | some v => "search=" ++ v ++ "&")
    ++ (if latest then "latest=&" else "")

inductive DlResp : Type where
  | ok (formats : List ShapedFormat)
  | err (msg : String) (code : Nat)
  | exn
deriving DecidableEq

structure DlOut where
  resp : DlResp
  cache : List (String × DlResp)
  gatewayCalls : Nat

/-- The undecorated `/download` view body: param check, then an
unbounded-timeout gateway call, returning the full shaped format list. -/
def downloadView (url search : Option String) (run : TaskRun) : DlResp × Nat :=
  if !(pyTruthy url || pyTruthy search) then
    (.err ("Provide \"url\" or \"search\"") 400, 0)
  else
    let r := extract_info url search run none
    match r.err with
    | some m => (.err m (r.code.getD 0), 1)
    | none =>
      match r.info with
      | none => (.exn, 1)
      | some info => (.ok (build_formats_list info), 1)

/-- The decorated `/download` handler: full-path cache key, hit bypasses the
view entirely, miss runs the view and caches its (non-exceptional) result. -/
def api_download (url search : Option String) (latest : Bool) (run : TaskRun)
    (cache : List (String × DlResp)) : DlOut :=
  let key := "download:" ++ downloadFullPath url search latest
  match cacheGet cache key with
  | some v => ⟨v, cache, 0⟩
  | none =>
    let vr := downloadView url search run
    match vr.1 with
    | .exn => ⟨.exn, cache, vr.2⟩
    | resp => ⟨resp, cacheSet cache key resp, vr.2⟩

/-! ## Sample data for concrete evaluations -/

def sampleFields : List (String × String) :=
  [("title", "sample title"), ("webpage_url", "https://example.com/w"),
   ("duration", "215"), ("uploader", "chan")]

def sampleInfo : InfoDict :=
  .mk false none (some []) (some []) sampleFields

/-- A task that finishes after one second with a plain video dict. -/
def sampleRun : TaskRun :=
  ⟨1, .completed (some sampleInfo)⟩

/-- An info dict whose only content is a format list. -/
def mkFormatsInfo (fs : List RawFormat) : InfoDict :=
  .mk false none (some fs) none []

def sampleProgFmt : RawFormat :=
  ⟨some ("https://cdn.example/p"), some ("avc1"), some ("mp4a"),
   some ("22"), some ("mp4"), some 1500, none, some 1280, some 720,
   some 30, some 128, some 44100⟩

def sampleNoUrlFmt : RawFormat :=
  ⟨none, some ("avc1"), some ("mp4a"), some ("23"), some ("mp4"),
   none, none, none, none, none, none, none⟩

def sampleBareFmt : RawFormat :=
  ⟨some ("https://cdn.example/b"), none, none, some ("18"), some ("mp4"),
   none, none, none, none, none, none, none⟩

/-! ## Claim C4: format classification -/

/-- C4: for a raw format descriptor with a stream URL and both codec fields
present, the classification is `progressive` when both codecs are valid
(not the sentinel `"none"`), `video-only` when only the video codec is
valid, `audio-only` when only the audio codec is valid, and the descriptor
is dropped when neither is; a descriptor whose `url` is absent or empty is
dropped regardless of its codec fields. -/
theorem format_classification_spec (f g : RawFormat) (u v a : String)
    (hu : f.url = some u) (hu₂ : u ≠ "") (hv : f.vcodec = some v)
    (ha : f.acodec = some a) (hg : g.url = none ∨ g.url = some "") :
    ((build_formats_list (mkFormatsInfo [f])).map ShapedFormat.kind =
      if v ≠ "none" ∧ a ≠ "none" then ["progressive"]
      else if v ≠ "none" then ["video-only"]
      else if a ≠ "none" then ["audio-only"]
      else [])
    ∧ build_formats_list (mkFormatsInfo [g]) = [] := by
  constructor
  · simp only [build_formats_list, mkFormatsInfo, InfoDict.formats,
      Option.getD_some, List.filterMap, shapeStep, hu, hv, ha, classify,
      shapeFormat]
    by_cases hvn : v = "none" <;> by_cases han : a = "none" <;>
      simp [hvn, han, hu₂, shapeFormat]
  · rcases hg with hg | hg <;>
      simp [build_formats_list, mkFormatsInfo, InfoDict.formats, shapeStep, hg]

/-- Witness for C4 at a concrete progressive descriptor and a concrete
url-less descriptor. -/
theorem format_classification_spec_witness :
    ((build_formats_list (mkFormatsInfo [sampleProgFmt])).map ShapedFormat.kind =
      if ("avc1" : String) ≠ "none" ∧ ("mp4a" : String) ≠ "none" then ["progressive"]
      else if ("avc1" : String) ≠ "none" then ["video-only"]
      else if ("mp4a" : String) ≠ "none" then ["audio-only"]
      else [])
    ∧ build_formats_list (mkFormatsInfo [sampleNoUrlFmt]) = [] :=
  format_classification_spec sampleProgFmt sampleNoUrlFmt
    ("https://cdn.example/p") "avc1" "mp4a" rfl (by decide) rfl rfl (Or.inl rfl)

/-! ## Claim C9: absent codec fields are treated as present -/

/-- C9: a descriptor with a stream URL whose `vcodec` and `acodec` keys are
absent (or hold Python `None`) is classified `progressive` rather than
dropped, because `f.get(...) != 'none'` is true of `None`. -/
theorem missing_codecs_progressive (f : RawFormat) (u : String)
    (hu : f.url = some u) (hu₂ : u ≠ "") (hv : f.vcodec = none)
    (ha : f.acodec = none) :
    (build_formats_list (mkFormatsInfo [f])).map ShapedFormat.kind =
      ["progressive"] := by
  simp [build_formats_list, mkFormatsInfo, InfoDict.formats, shapeStep,
    classify, hu, hv, ha, hu₂, shapeFormat]

/-- Witness for C9 at a concrete descriptor with both codec keys absent. -/
theorem missing_codecs_progressive_witness :
    (build_formats_list (mkFormatsInfo [sampleBareFmt])).map ShapedFormat.kind =
      ["progressive"] :=
  missing_codecs_progressive sampleBareFmt ("https://cdn.example/b") rfl
    (by decide) rfl rfl

/-! ## Claim C5: size formatting -/

/-- C5: size formatting picks the decimal (1000-based) unit tier with
two-decimal precision above the byte tier: the spec's four examples hold,
every count below 1000 renders as plain bytes, and every higher count
renders as an integer part, a dot, exactly two decimal digits, and the
tier's unit suffix. -/
theorem format_size_spec :
    format_size 500 = "500 B"
    ∧ format_size 1500 = "1.50 KB"
    ∧ format_size 2500000 = "2.50 MB"
    ∧ format_size 3000000000 = "3.00 GB"
    ∧ (∀ n : Nat, n < 1000 → format_size n = toString n ++ " B")
    ∧ (∀ n : Nat, 1000 ≤ n → n < 1000000 →
        ∃ i k : Nat, k < 100 ∧ format_size n = toString i ++ "." ++ pad2 k ++ " KB")
    ∧ (∀ n : Nat, 1000000 ≤ n → n < 1000000000 →
        ∃ i k : Nat, k < 100 ∧ format_size n = toString i ++ "." ++ pad2 k ++ " MB")
    ∧ (∀ n : Nat, 1000000000 ≤ n →
        ∃ i k : Nat, k < 100 ∧ format_size n = toString i ++ "." ++ pad2 k ++ " GB") := by
  refine ⟨by decide, by decide, by decide, by decide, ?_, ?_, ?_, ?_⟩
  · intro n h
    simp only [format_size]
    rw [if_neg (by omega), if_neg (by omega), if_neg (by omega)]
  · intro n h₁ h₂
    refine ⟨round2 n 1000 / 100, round2 n 1000 % 100, Nat.mod_lt _ (by omega), ?_⟩
    simp only [format_size, fmt2]
    rw [if_neg (by omega), if_neg (by omega), if_pos h₁]
  · intro n h₁ h₂
    refine ⟨round2 n 1000000 / 100, round2 n 1000000 % 100, Nat.mod_lt _ (by omega), ?_⟩
    simp only [format_size, fmt2]
    rw [if_neg (by omega), if_pos h₁]
  · intro n h₁
    refine ⟨round2 n 1000000000 / 100, round2 n 1000000000 % 100,
      Nat.mod_lt _ (by omega), ?_⟩
    simp only [format_size, fmt2]
    rw [if_pos h₁]

/-- Witness for C5's quantified tier parts at concrete byte counts. -/
theorem format_size_spec_witness :
    format_size 999 = toString 999 ++ " B"
    ∧ (∃ i k : Nat, k < 100 ∧ format_size 123456 = toString i ++ "." ++ pad2 k ++ " KB")
    ∧ (∃ i k : Nat, k < 100 ∧ format_size 123456789 = toString i ++ "." ++ pad2 k ++ " MB")
    ∧ (∃ i k : Nat, k < 100 ∧ format_size 9876543210 = toString i ++ "." ++ pad2 k ++ " GB") :=
  ⟨format_size_spec.2.2.2.2.1 999 (by decide),
   format_size_spec.2.2.2.2.2.1 123456 (by decide) (by decide),
   format_size_spec.2.2.2.2.2.2.1 123456789 (by decide) (by decide),
   format_size_spec.2.2.2.2.2.2.2 9876543210 (by decide)⟩

/-! ## Lemmas about the embedded Python primitives -/

theorem splitChars_ne_nil (sep : Char) (cs : List Char) :
    splitChars sep cs ≠ [] := by
  induction cs with
  | nil => simp [splitChars]
  | cons c cs ih =>
    simp only [splitChars]
    split <;> simp

theorem splitChars_append (sep : Char) (l r : List Char) (h : sep ∉ l) :
    splitChars sep (l ++ sep :: r) = l :: splitChars sep r := by
  induction l with
  | nil => simp [splitChars]
  | cons c l ih =>
    have hc : c ≠ sep := fun hcs => h (hcs ▸ List.mem_cons_self c l)
    have hl : sep ∉ l := fun hm => h (List.mem_cons_of_mem c hm)
    simp only [List.cons_append, splitChars, List.append_eq, ih hl, if_neg hc,
      List.headD_cons, List.tail_cons]

theorem splitChars_no_sep (sep : Char) (cs : List Char) (h : sep ∉ cs) :
    splitChars sep cs = [cs] := by
  induction cs with
  | nil => rfl
  | cons c cs ih =>
    have hc : c ≠ sep := fun hcs => h (hcs ▸ List.mem_cons_self c cs)
    have hl : sep ∉ cs := fun hm => h (List.mem_cons_of_mem c hm)
    simp only [splitChars, ih hl, if_neg hc, List.headD_cons, List.tail_cons]

theorem dropWhile_all_false {p : Char → Bool} {cs : List Char}
    (h : ∀ c ∈ cs, p c = false) : cs.dropWhile p = cs := by
  cases cs with
  | nil => rfl
  | cons c cs =>
    rw [List.dropWhile_cons, if_neg]
    simp [h c (List.mem_cons_self c cs)]

theorem pyStrip_all_digits {cs : List Char} (h : cs.all Char.isDigit) :
    pyStripChars cs = cs := by
  have hnw : ∀ c ∈ cs, pyWS c = false := by
    intro c hc
    have hd : c.isDigit = true := by
      have := List.all_eq_true.mp h c hc
      simpa using this
    simp only [pyWS, Bool.or_eq_false_iff, beq_eq_false_iff_ne]
    refine ⟨⟨⟨?_, ?_⟩, ?_⟩, ?_⟩ <;> rintro rfl <;> simp at hd
  rw [pyStripChars, dropWhile_all_false hnw, dropWhile_all_false, List.reverse_reverse]
  intro c hc
  exact hnw c (List.mem_reverse.mp hc)

theorem digit_ne_colon {c : Char} (h : c.isDigit = true) : c ≠ ':' := by
  rintro rfl
  simp at h

theorem noColon_of_digits {p : String} (h : pyIsDigit p = true) :
    ':' ∉ p.data := by
  intro hm
  have hall : p.data.all Char.isDigit = true := by
    have := h
    simp only [pyIsDigit, Bool.and_eq_true] at this
    exact this.2
  exact digit_ne_colon (by simpa using List.all_eq_true.mp hall ':' hm) rfl

theorem pyInt_digits (s : String) (h : pyIsDigit s = true) :
    pyInt s = some (Int.ofNat (digitsToNat s.data)) := by
  have hsplit : (!s.data.isEmpty) = true ∧ s.data.all Char.isDigit = true := by
    have := h
    simp only [pyIsDigit, Bool.and_eq_true] at this
    exact this
  rcases hsplit with ⟨hne, hall⟩
  rw [pyInt, pyStrip_all_digits hall]
  rcases hd : s.data with _ | ⟨c, rest⟩
  · rw [hd] at hne; simp at hne
  · rw [hd] at hall
    have hc : c.isDigit = true := by
      have := List.all_eq_true.mp hall c (List.mem_cons_self c rest)
      simpa using this
    have hcm : c ≠ '-' := by rintro rfl; simp at hc
    have hcp : c ≠ '+' := by rintro rfl; simp at hc
    simp only [pyIntChars, if_neg hcm, if_neg hcp, digitsOpt, List.isEmpty_cons,
      Bool.false_eq_true, if_false, hall, if_true, Option.map_some]
    rfl

theorem toString_intOfNat (n : Nat) : toString (Int.ofNat n) = toString n := rfl

theorem toString_natCast (n : Nat) : toString ((n : Int)) = toString n := rfl

theorem string_data_eq (a : String) : (⟨a.data⟩ : String) = a := rfl

theorem data_append_colon (x y : String) :
    (x ++ ":" ++ y).data = x.data ++ ':' :: y.data := by
  simp [String.data_append]

theorem append_colon_ne_empty (x y : String) : x ++ ":" ++ y ≠ "" := by
  intro h
  have := congrArg String.data h
  simp [String.data_append] at this

theorem pySplit_two (a b : String) (ha : ':' ∉ a.data) (hb : ':' ∉ b.data) :
    pySplit ':' (a ++ ":" ++ b) = [a, b] := by
  rw [pySplit, data_append_colon, splitChars_append ':' a.data b.data ha,
    splitChars_no_sep ':' b.data hb]
  simp

theorem pySplit_three (a b c : String) (ha : ':' ∉ a.data) (hb : ':' ∉ b.data)
    (hc : ':' ∉ c.data) :
    pySplit ':' (a ++ ":" ++ b ++ ":" ++ c) = [a, b, c] := by
  have hdata : (a ++ ":" ++ b ++ ":" ++ c).data
      = a.data ++ ':' :: (b.data ++ ':' :: c.data) := by
    simp [String.data_append]
  rw [pySplit, hdata, splitChars_append ':' a.data _ ha,
    splitChars_append ':' b.data c.data hb, splitChars_no_sep ':' c.data hc]
  simp

theorem pySplit_single (p : String) (h : ':' ∉ p.data) : pySplit ':' p = [p] := by
  rw [pySplit, splitChars_no_sep ':' p.data h]
  simp

/-! ## Claim C10: zero-hour three-part form collapses to the two-part form -/

/-- C10: for colon-free minute and second components, normalizing
`"0:m:s"` gives the same output as normalizing `"m:s"` — the hour component
is omitted when `int(h)` is zero, so the two inputs are indistinguishable. -/
theorem zero_hour_omitted (m s : String) (hm : ':' ∉ m.data) (hs : ':' ∉ s.data) :
    to_iso_duration ("0:" ++ m ++ ":" ++ s) = to_iso_duration (m ++ ":" ++ s) := by
  have h0 : ':' ∉ ("0" : String).data := by decide
  have hL : pySplit ':' ("0:" ++ m ++ ":" ++ s) = [("0" : String), m, s] :=
    pySplit_three ("0") m s h0 hm hs
  rw [to_iso_duration, to_iso_duration,
    if_neg (append_colon_ne_empty ("0:" ++ m) s),
    if_neg (append_colon_ne_empty m s), hL, pySplit_two m s hm hs]
  simp only [isoOfParts]
  rw [show pyInt ("0") = some 0 from by decide]
  simp

/-- Witness for C10 at concrete minute and second components. -/
theorem zero_hour_omitted_witness :
    to_iso_duration ("0:" ++ "5" ++ ":" ++ "9") = to_iso_duration ("5" ++ ":" ++ "9") :=
  zero_hour_omitted ("5") ("9") (by decide) (by decide)

/-! ## Claim C3: duration normalization -/

/-- C3 (amended): valid colon-delimited duration strings of shape `H:M:S`,
`M:S` and `S` normalize to the corresponding `PT…` duration (hour component
omitted when zero); the empty string, a single non-numeric part, and four
or more parts give `PT0S`; but a malformed part inside a two- or three-part
string makes `int(...)` raise `ValueError` (modelled as `none`) instead of
producing a zero duration. -/
theorem to_iso_duration_spec :
    (∀ hq mq sq : String, pyIsDigit hq = true → pyIsDigit mq = true →
      pyIsDigit sq = true →
      to_iso_duration (hq ++ ":" ++ mq ++ ":" ++ sq) =
        some ((if digitsToNat hq.data ≠ 0
                then "PT" ++ toString (digitsToNat hq.data) ++ "H" else "PT")
          ++ toString (digitsToNat mq.data) ++ "M"
          ++ toString (digitsToNat sq.data) ++ "S"))
    ∧ (∀ mq sq : String, pyIsDigit mq = true → pyIsDigit sq = true →
      to_iso_duration (mq ++ ":" ++ sq) =
        some ("PT" ++ toString (digitsToNat mq.data) ++ "M"
          ++ toString (digitsToNat sq.data) ++ "S"))
    ∧ (∀ p : String, pyIsDigit p = true →
      to_iso_duration p = some ("PT" ++ toString (digitsToNat p.data) ++ "S"))
    ∧ to_iso_duration ("") = some ("PT0S")
    ∧ (∀ p : String, p ≠ "" → ':' ∉ p.data → pyIsDigit p = false →
      to_iso_duration p = some ("PT0S"))
    ∧ to_iso_duration ("1:2:3:4") = some ("PT0S") := by
  refine ⟨?_, ?_, ?_, by decide, ?_, by decide⟩
  · intro hq mq sq h1 h2 h3
    rw [to_iso_duration, if_neg (append_colon_ne_empty (hq ++ ":" ++ mq) sq),
      pySplit_three hq mq sq (noColon_of_digits h1) (noColon_of_digits h2)
        (noColon_of_digits h3)]
    simp only [isoOfParts, pyInt_digits _ h1, pyInt_digits _ h2, pyInt_digits _ h3,
      Option.some_bind]
    simp [Int.ofNat_eq_zero, toString_intOfNat, toString_natCast]
  · intro mq sq h2 h3
    rw [to_iso_duration, if_neg (append_colon_ne_empty mq sq),
      pySplit_two mq sq (noColon_of_digits h2) (noColon_of_digits h3)]
    simp only [isoOfParts, pyInt_digits _ h2, pyInt_digits _ h3, Option.some_bind,
      toString_intOfNat, toString_natCast]
  · intro p hp
    have hne : p ≠ "" := by
      intro h
      rw [h] at hp
      exact absurd hp (by decide)
    rw [to_iso_duration, if_neg hne, pySplit_single p (noColon_of_digits hp)]
    simp [isoOfParts, hp]
  · intro p hne hcol hp
    rw [to_iso_duration, if_neg hne, pySplit_single p hcol]
    simp [isoOfParts, hp]

/-- Witness for C3's quantified parts at the spec's own examples. -/
theorem to_iso_duration_spec_witness :
    to_iso_duration ("1" ++ ":" ++ "02" ++ ":" ++ "03") = some ("PT1H2M3S")
    ∧ to_iso_duration ("5" ++ ":" ++ "09") = some ("PT5M9S")
    ∧ to_iso_duration ("45") = some ("PT45S") := by
  refine ⟨?_, ?_, ?_⟩
  · rw [to_iso_duration_spec.1 ("1") ("02") ("03") (by decide) (by decide) (by decide)]
    decide
  · rw [to_iso_duration_spec.2.1 ("5") ("09") (by decide) (by decide)]
    decide
  · rw [to_iso_duration_spec.2.2.1 ("45") (by decide)]
    decide

/-- C3 counterexample: the malformed two-part input `":"` makes the source
raise `ValueError` from `int('')` (modelled as `none`); it does not produce
the zero-duration representation the claim requires. -/
theorem to_iso_duration_malformed_raises :
    to_iso_duration (":") = none ∧ to_iso_duration (":") ≠ some ("PT0S") :=
  ⟨by decide, by decide⟩

/-! ## Cache lemmas -/

theorem cacheGet_set_same {α : Type} (c : List (String × α)) (k : String) (v : α) :
    cacheGet (cacheSet c k v) k = some v := by
  simp [cacheSet, cacheGet]

theorem cacheGet_set_ne {α : Type} (c : List (String × α)) (k K : String) (v : α)
    (h : k ≠ K) : cacheGet (cacheSet c k v) K = cacheGet c K := by
  simp [cacheSet, cacheGet, h]

theorem cacheGet_del_self {α : Type} (c : List (String × α)) (k : String) :
    cacheGet (cacheDel c k) k = none := by
  induction c with
  | nil => rfl
  | cons p rest ih =>
    obtain ⟨k₁, v⟩ := p
    by_cases hk : k₁ = k
    · simp [cacheDel, hk, ih]
    · simp [cacheDel, cacheGet, hk, ih]

theorem cacheGet_del_none {α : Type} (c : List (String × α)) (k K : String)
    (h : cacheGet c K = none) : cacheGet (cacheDel c k) K = none := by
  induction c with
  | nil => rfl
  | cons p rest ih =>
    obtain ⟨k₁, v⟩ := p
    by_cases hk₁ : k₁ = K
    · simp [cacheGet, hk₁] at h
    · simp only [cacheGet, if_neg hk₁] at h
      by_cases hk : k₁ = k
      · simp [cacheDel, hk, ih h]
      · simp [cacheDel, cacheGet, hk, hk₁, ih h]

/-! ## Claim C6: search mode -/

/-- C6: a truthy search query is wrapped as the `ytsearch:` directive; when
the extraction delivers a dict with an `entries` key, only the first entry
becomes the success value, and an empty (or `None`) result set produces the
not-found failure with HTTP code 404, which `/api/all` surfaces verbatim. -/
theorem search_mode_spec :
    (∀ (url : Option String) (q : String), q ≠ "" →
      targetOf url (some q) = some ("ytsearch:" ++ q))
    ∧ (∀ (url : Option String) (q : String) (run : TaskRun) (d e : InfoDict)
        (es : List InfoDict), q ≠ "" → run.outcome = .completed (some d) →
        d.hasEntries = true → d.entries = some (e :: es) →
        extract_info url (some q) run none = ⟨some e, none, none⟩)
    ∧ (∀ (url : Option String) (q : String) (run : TaskRun) (d : InfoDict),
        q ≠ "" → run.outcome = .completed (some d) → d.hasEntries = true →
        d.entries.getD [] = [] →
        extract_info url (some q) run none
          = ⟨none, some ("No search results"), some 404⟩)
    ∧ (∀ (q : String) (t : Nat) (run : TaskRun) (d : InfoDict),
        q ≠ "" → run.duration ≤ t → run.outcome = .completed (some d) →
        d.hasEntries = true → d.entries.getD [] = [] →
        (api_all q ("") t run).resp = .err ("No search results") 404) := by
  refine ⟨?_, ?_, ?_, ?_⟩
  · intro url q hq
    simp [targetOf, pyTruthy, hq]
  · intro url q run d e es hq hout hE hent
    have hA : awaitResult run none = .done (some d) := by
      simp [awaitResult, hout]
    simp only [extract_info, hA]
    simp [pyTruthy, hq, hE, hent]
  · intro url q run d hq hout hE hent
    have hA : awaitResult run none = .done (some d) := by
      simp [awaitResult, hout]
    simp only [extract_info, hA]
    simp [pyTruthy, hq, hE, hent]
  · intro q t run d hq ht hout hE hent
    have hA : awaitResult run (some t) = .done (some d) := by
      simp [awaitResult, hout, Nat.not_lt.mpr ht]
    have hr : extract_info none (some q) run (some t)
        = ⟨none, some ("No search results"), some 404⟩ := by
      simp only [extract_info, hA]
      simp [pyTruthy, hq, hE, hent]
    simp only [api_all]
    rw [if_neg (fun hqu => hq hqu.1)]
    simp [strOrNone, hq, hr]

/-- Witness for C6 at a one-entry result set, an empty result set, and the
route surfacing, using a search dict that wraps `sampleInfo`. -/
theorem search_mode_spec_witness :
    targetOf none (some ("lofi")) = some ("ytsearch:" ++ "lofi")
    ∧ extract_info none (some ("lofi"))
        ⟨1, .completed (some (.mk true (some [sampleInfo]) none none []))⟩ none
        = ⟨some sampleInfo, none, none⟩
    ∧ extract_info none (some ("lofi"))
        ⟨1, .completed (some (.mk true (some []) none none []))⟩ none
        = ⟨none, some ("No search results"), some 404⟩
    ∧ (api_all ("lofi") ("") 30
        ⟨1, .completed (some (.mk true (some []) none none []))⟩).resp
        = .err ("No search results") 404 :=
  ⟨search_mode_spec.1 none ("lofi") (by decide),
   search_mode_spec.2.1 none ("lofi") _ _ sampleInfo [] (by decide) rfl rfl rfl,
   search_mode_spec.2.2.1 none ("lofi") _ _ (by decide) rfl rfl rfl,
   search_mode_spec.2.2.2 ("lofi") 30 _ _ (by decide) (by decide) rfl rfl rfl⟩

/-! ## Claim C7: timeout and failure classes -/

/-- C7: a gateway call whose timeout is shorter than the task's completion
time returns the structured timeout outcome (no exception escapes) and the
route responds 504; a completion reporting a yt-dlp `DownloadError` returns
the failure outcome with the library's message and the route responds 500. -/
theorem timeout_and_failure_spec :
    (∀ (url sq : Option String) (run : TaskRun) (t : Nat), t < run.duration →
      extract_info url sq run (some t) = ⟨none, some ("yt-dlp timed out"), some 504⟩)
    ∧ (∀ (q u : String) (mt : Nat) (run : TaskRun)
        (cache : List (String × List (String × Option String))),
        mt < run.duration → ¬(q = "" ∧ u = "") →
        cacheGet cache ("meta:" ++ q ++ ":" ++ u) = none →
        (api_meta q u false mt run cache).resp = .err ("yt-dlp timed out") 504)
    ∧ (∀ (url sq : Option String) (run : TaskRun) (t : Nat) (m : String),
        run.duration ≤ t → run.outcome = .downloadError m →
        extract_info url sq run (some t) = ⟨none, some m, some 500⟩)
    ∧ (∀ (q u : String) (mt : Nat) (run : TaskRun) (m : String)
        (cache : List (String × List (String × Option String))),
        run.duration ≤ mt → run.outcome = .downloadError m → ¬(q = "" ∧ u = "") →
        cacheGet cache ("meta:" ++ q ++ ":" ++ u) = none →
        (api_meta q u false mt run cache).resp = .err m 500) := by
  refine ⟨?_, ?_, ?_, ?_⟩
  · intro url sq run t ht
    have hA : awaitResult run (some t) = .timedOut := by
      simp [awaitResult, ht]
    simp only [extract_info, hA]
  · intro q u mt run cache ht hqu hc
    have hr : extract_info (strOrNone u) (strOrNone q) run (some mt)
        = ⟨none, some ("yt-dlp timed out"), some 504⟩ := by
      have hA : awaitResult run (some mt) = .timedOut := by
        simp [awaitResult, ht]
      simp only [extract_info, hA]
    simp only [api_meta, if_neg, Bool.false_eq_true, ite_false]
    rw [hc, if_neg hqu]
    simp [hr]
  · intro url sq run t m ht hout
    have hA : awaitResult run (some t) = .failedDL m := by
      simp [awaitResult, hout, Nat.not_lt.mpr ht]
    simp only [extract_info, hA]
  · intro q u mt run m cache ht hout hqu hc
    have hr : extract_info (strOrNone u) (strOrNone q) run (some mt)
        = ⟨none, some m, some 500⟩ := by
      have hA : awaitResult run (some mt) = .failedDL m := by
        simp [awaitResult, hout, Nat.not_lt.mpr ht]
      simp only [extract_info, hA]
    simp only [api_meta, if_neg, Bool.false_eq_true, ite_false]
    rw [hc, if_neg hqu]
    simp [hr]

/-- Witness for C7: a 3-second-budget call against a 10-second task times
out (504 at the gateway and at `/api/meta`), and a download error within
budget surfaces as 500. -/
theorem timeout_and_failure_spec_witness :
    extract_info none (some ("x")) ⟨10, .completed (some sampleInfo)⟩ (some 3)
      = ⟨none, some ("yt-dlp timed out"), some 504⟩
    ∧ (api_meta ("x") ("") false 3 ⟨10, .completed (some sampleInfo)⟩ []).resp
      = .err ("yt-dlp timed out") 504
    ∧ extract_info none (some ("x")) ⟨1, .downloadError ("Unsupported URL")⟩ (some 3)
      = ⟨none, some ("Unsupported URL"), some 500⟩
    ∧ (api_meta ("x") ("") false 3 ⟨1, .downloadError ("Unsupported URL")⟩ []).resp
      = .err ("Unsupported URL") 500 :=
  ⟨timeout_and_failure_spec.1 none (some ("x")) _ 3 (by decide),
   timeout_and_failure_spec.2.1 ("x") ("") 3 _ [] (by decide) (by decide) rfl,
   timeout_and_failure_spec.2.2.1 none (some ("x")) _ 3 ("Unsupported URL")
     (by decide) rfl,
   timeout_and_failure_spec.2.2.2 ("x") ("") 3 _ ("Unsupported URL") []
     (by decide) rfl (by decide) rfl⟩

/-! ## Claim C1: cache idempotence -/

/-- C1 counterexample: `/api/all` performs no caching at all — its handler
takes no cache state and makes exactly one gateway call on every request,
so the second of two consecutive identical requests also invokes the
gateway (the claim requires zero calls on the second request).  The
response is deterministic, so the identical-JSON half of the claim is not
what fails. -/
theorem api_all_second_call_invokes_gateway :
    (api_all ("q") ("") 30 sampleRun).gatewayCalls = 1 := rfl

/-- C1 (amended): on the cached `/api/meta` route, when a first request
(no bypass flag) produced a successful body, an identical immediate second
request returns exactly the same body from the cache and makes no gateway
call — whatever the second request's task would have done. -/
theorem api_meta_cache_idempotent (q u : String) (mt : Nat) (run run₂ : TaskRun)
    (cache : List (String × List (String × Option String)))
    (d : List (String × Option String))
    (h : (api_meta q u false mt run cache).resp = .ok d) :
    (api_meta q u false mt run₂ (api_meta q u false mt run cache).cache).resp = .ok d
    ∧ (api_meta q u false mt run₂
        (api_meta q u false mt run cache).cache).gatewayCalls = 0 := by
  simp only [api_meta, Bool.false_eq_true, ite_false] at h ⊢
  cases hc : cacheGet cache ("meta:" ++ q ++ ":" ++ u) with
  | some v =>
    rw [hc] at h
    simp only [MetaResp.ok.injEq] at h
    subst h
    simp [hc]
  | none =>
    rw [hc] at h
    by_cases hqu : q = "" ∧ u = ""
    · rw [if_pos hqu] at h
      simp at h
    · rw [if_neg hqu] at h ⊢
      cases hre : (extract_info (strOrNone u) (strOrNone q) run (some mt)).err with
      | some m =>
        rw [hre] at h
        simp at h
      | none =>
        rw [hre] at h
        cases hri : (extract_info (strOrNone u) (strOrNone q) run (some mt)).info with
        | none =>
          rw [hri] at h
          simp at h
        | some info =>
          rw [hri] at h
          simp only [MetaResp.ok.injEq] at h
          subst h
          simp [cacheGet_set_same]

/-- Witness for C1 (amended): a successful first `/api/meta` request, then
an identical second one served from cache with zero gateway calls. -/
theorem api_meta_cache_idempotent_witness :
    (api_meta ("a") ("") false 6 sampleRun
      (api_meta ("a") ("") false 6 sampleRun []).cache).resp
        = .ok (metaDataOf sampleInfo)
    ∧ (api_meta ("a") ("") false 6 sampleRun
      (api_meta ("a") ("") false 6 sampleRun []).cache).gatewayCalls = 0 :=
  api_meta_cache_idempotent ("a") ("") 6 sampleRun sampleRun []
    (metaDataOf sampleInfo) rfl

/-! ## Claim C2: the bypass flag -/

/-- C2 counterexample: on `/download` the bypass flag is only part of the
full-path cache key — nothing is deleted.  The first flagged request misses
and invokes the gateway once; the second identical flagged request is served
from the cache by the `cached` decorator and invokes the gateway zero times,
although a cache entry for its key exists, refuting "a request carrying the
bypass query flag always invokes the Task Gateway". -/
theorem download_bypass_served_from_cache :
    (api_download (some ("u")) none true sampleRun []).gatewayCalls = 1
    ∧ (api_download (some ("u")) none true sampleRun
        (api_download (some ("u")) none true sampleRun []).cache).gatewayCalls = 0 :=
  ⟨rfl, rfl⟩

/-- C2 (amended): on the routes that check the flag explicitly, such as
`/api/meta`, a request with the bypass flag deletes the cache entry before
computing, so the gateway is invoked exactly once even when an entry for
the key exists. -/
theorem api_meta_latest_forces_gateway (q u : String) (mt : Nat) (run : TaskRun)
    (cache : List (String × List (String × Option String)))
    (h : ¬(q = "" ∧ u = "")) :
    (api_meta q u true mt run cache).gatewayCalls = 1 := by
  simp only [api_meta, ite_true]
  rw [cacheGet_del_self, if_neg h]
  cases hre : (extract_info (strOrNone u) (strOrNone q) run (some mt)).err with
  | some m => simp [hre]
  | none =>
    cases hri : (extract_info (strOrNone u) (strOrNone q) run (some mt)).info with
    | none => simp [hre, hri]
    | some info => simp [hre, hri]

/-- Witness for C2 (amended): a flagged `/api/meta` request against a cache
that already holds an entry for its key still makes one gateway call. -/
theorem api_meta_latest_forces_gateway_witness :
    (api_meta ("a") ("") true 6 sampleRun
      [("meta:a:", metaDataOf sampleInfo)]).gatewayCalls = 1 :=
  api_meta_latest_forces_gateway ("a") ("") 6 sampleRun
    [("meta:a:", metaDataOf sampleInfo)] (by decide)

/-! ## Claim C8: missing required parameters -/

theorem string_eq_empty_of_data_nil {s : String} (h : s.data = []) : s = "" := by
  cases s with
  | mk l =>
    simp only [] at h
    subst h
    rfl

/-- A key built from non-both-empty params never equals the key of the
empty-params request. -/
theorem fastKey_ne (q u : String) (h : ¬(q = "" ∧ u = "")) :
    ("fast_meta:" ++ q ++ ":" ++ u) ≠ "fast_meta::" := by
  intro heq
  have hd := congrArg String.data heq
  have hlen := congrArg List.length hd
  have h1 : ("fast_meta:" : String).data.length = 10 := by decide
  have h2 : (":" : String).data.length = 1 := by decide
  have h3 : ("fast_meta::" : String).data.length = 11 := by decide
  simp only [String.data_append, List.append_assoc, List.length_append,
    h1, h2, h3] at hlen
  have hq : q.data.length = 0 ∧ u.data.length = 0 := by omega
  exact h ⟨string_eq_empty_of_data_nil (List.length_eq_zero.mp hq.1),
    string_eq_empty_of_data_nil (List.length_eq_zero.mp hq.2)⟩

/-- One `/api/fast-meta` request processed against a cache state. -/
structure FastReq where
  q : String
  u : String
  latest : Bool
  searchResults : List SearchVid
  metaTimeout : Nat
  run : TaskRun

def fastStep (c : List (String × List (String × Option String))) (r : FastReq) :
    List (String × List (String × Option String)) :=
  (api_fast_meta r.q r.u r.latest r.searchResults r.metaTimeout r.run c).cache

/-- The cache produced by running a sequence of requests from the empty
process-start state. -/
def fastTrace (rs : List FastReq) : List (String × List (String × Option String)) :=
  rs.foldl fastStep []

theorem fast_meta_preserves_empty_key
    (c : List (String × List (String × Option String))) (r : FastReq)
    (h : cacheGet c ("fast_meta::") = none) :
    cacheGet (fastStep c r) ("fast_meta::") = none := by
  have hc₁ : cacheGet
      (if r.latest then cacheDel c ("fast_meta:" ++ r.q ++ ":" ++ r.u) else c)
      ("fast_meta::") = none := by
    split
    · exact cacheGet_del_none _ _ _ h
    · exact h
  simp only [fastStep, api_fast_meta]
  split
  · exact hc₁
  · split
    · exact hc₁
    · rename_i hqu
      have hne := fastKey_ne r.q r.u hqu
      split
      · split
        · exact hc₁
        · split
          · exact hc₁
          · rw [cacheGet_set_ne _ _ _ _ hne]
            exact hc₁
      · split
        · exact hc₁
        · split
          · exact hc₁
          · split
            · exact hc₁
            · rw [cacheGet_set_ne _ _ _ _ hne]
              exact hc₁

theorem fastTrace_empty_key (rs : List FastReq) :
    cacheGet (fastTrace rs) ("fast_meta::") = none := by
  suffices h : ∀ c, cacheGet c ("fast_meta::") = none →
      cacheGet (rs.foldl fastStep c) ("fast_meta::") = none from h [] rfl
  induction rs with
  | nil => exact fun c hc => hc
  | cons r rs ih =>
    exact fun c hc => ih _ (fast_meta_preserves_empty_key c r hc)

/-- C8: in any state reachable from process start, a request with both
required parameters missing answers HTTP 400 with an error body and never
invokes the gateway — shown for the cited `/api/fast-meta` (whose cache for
the empty-params key is provably never populated) and for the uncached
`/api/all`. -/
theorem missing_params_400 :
    (∀ (rs : List FastReq) (latest : Bool) (sr : List SearchVid) (mt : Nat)
        (run : TaskRun),
      (api_fast_meta ("") ("") latest sr mt run (fastTrace rs)).resp
          = .err ("Provide either \"search\" or \"url\" parameter") 400
        ∧ (api_fast_meta ("") ("") latest sr mt run (fastTrace rs)).gatewayCalls = 0)
    ∧ (∀ (t : Nat) (run : TaskRun),
      (api_all ("") ("") t run).resp = .err ("Provide \"url\" or \"search\"") 400
        ∧ (api_all ("") ("") t run).gatewayCalls = 0) := by
  constructor
  · intro rs latest sr mt run
    have hc : cacheGet (fastTrace rs) ("fast_meta::") = none := fastTrace_empty_key rs
    simp only [api_fast_meta]
    rw [show ("fast_meta:" ++ "" ++ ":" ++ "" : String) = "fast_meta::" from rfl]
    cases latest with
    | false =>
      simp only [Bool.false_eq_true, ite_false]
      rw [hc]
      simp
    | true =>
      simp only [ite_true]
      rw [cacheGet_del_self]
      simp
  · intro t run
    simp [api_all]
